import Mathlib

/-!
Verification of `audioio` (`src/audioio/playaudio.py`) against its
natural-language specification.

The development shallowly embeds the module:

* the sample pipeline of `PlayAudio._play_pyaudio` (lines 135-142) and
  `PlayAudio._play_ossaudiodev` (lines 193-195) over `ℚ` (samples are
  Python floats; all relevant values here are exactly representable, and
  NaN values arising from numpy's division by zero are modelled by
  `none`);
* the session state machine: `__init__`, `open`, `play`, `beep`,
  `_close_pyaudio`, `_close_ossaudiodev`, `__exit__`, with backend
  availability and backend-initialization failure as an explicit
  environment;
* a small heap model of the numpy statements of the play paths, making
  the distinction between allocating a new array and mutating one in
  place explicit, for the frame-effect property.
-/

/-- Python exceptions that the embedded code paths can raise.  The module
itself defines no exception class; `invalidArgument` is included only so
that "fails with InvalidArgument" is expressible (and refutable). -/
inductive PyExc where
  | importError
  | valueError
  | indexError
  | attributeError
  | zeroDivisionError
  | invalidArgument
  | other
deriving DecidableEq

/-- Result of running one of the embedded Python operations. -/
inductive Outcome where
  | ok
  | exc (e : PyExc)
deriving DecidableEq

/-- Recognizer for the `InvalidArgument` failure the spec postulates. -/
def isInvalidArgumentExc : Outcome → Bool
  | .exc .invalidArgument => true
  | _ => false

/-! ## Sample pipeline (lines 135-142 and 193-195) -/

/-- numpy `np.round`: round half to even (banker's rounding). -/
def roundHalfEven (x : ℚ) : ℤ :=
  let f := ⌊x⌋
  let r := x - (f : ℚ)
  if r < 1/2 then f
  else if 1/2 < r then f + 1
  else if f % 2 = 0 then f else f + 1

/-- numpy `np.max` on a nonempty 1-D array: the greatest element.  The
`[]` case is junk (numpy raises `ValueError` there); every use below is
guarded by a nonemptiness check. -/
def listMax : List ℚ → ℚ
  | [] => 0
  | x :: xs => xs.foldl max x

/-- Lines 135-136 (identically 193-194) for a single-channel buffer:
`rawdata = data - np.mean(data, axis=0)` followed by the in-place
`rawdata /= np.max(rawdata)*2.0`.  There is no guard on the divisor in
the source: when `np.max(rawdata)*2.0 = 0` numpy produces NaN samples
(with a `RuntimeWarning`, not an exception), modelled as `none`.  An
empty buffer makes `np.max` raise `ValueError`, modelled as the outer
`none`. -/
def normalizeStep (data : List ℚ) : Option (List (Option ℚ)) :=
  if data.isEmpty then none
  else
    let m := data.sum / (data.length : ℚ)
    let rawdata := data.map (fun x => x - m)
    let d := listMax rawdata * 2
    some (if d = 0 then rawdata.map (fun _ => (none : Option ℚ))
          else rawdata.map (fun x => some (x / d)))

/-- Line 142 / 195: `np.round(2.0**15*rawdata)` cast to `'i2'`.  Casting
NaN to an integer type is undefined behaviour in numpy, so a NaN sample
stays `none`. -/
def quantize (x : Option ℚ) : Option ℤ :=
  x.map (fun v => roundHalfEven (2 ^ 15 * v))

/-- Single-channel pipeline of `PlayAudio._play_pyaudio` (lines 135-142):
normalize, pad with `np.zeros(11*len(rawdata)/10)` trailing zeros
(Python 2 integer division), then quantize. -/
def play_pyaudio_pipeline (data : List ℚ) : Option (List (Option ℤ)) :=
  (normalizeStep data).map (fun nd =>
    (nd ++ List.replicate (11 * data.length / 10) (some (0 : ℚ))).map quantize)

/-- Single-channel pipeline of `PlayAudio._play_ossaudiodev`
(lines 193-195): normalize then quantize.  No padding is appended on
this path. -/
def play_ossaudiodev_pipeline (data : List ℚ) : Option (List (Option ℤ)) :=
  (normalizeStep data).map (fun nd => nd.map quantize)

/-- Checks that a pipeline result is a defined buffer consisting solely
of zero samples. -/
def allZeroOutput : Option (List (Option ℤ)) → Bool
  | none => false
  | some l => l.all (fun s => s == some 0)

/-! ## Session state machine -/

/-- The two real backends tried by `PlayAudio.open` (lines 210-213), in
priority order. -/
inductive BackendId where
  | pyaudioB
  | ossB
deriving DecidableEq

/-- Value stored in `self.handle`: `None`, a `pyaudio.PyAudio` object
(line 111; `terminated` records whether `terminate()` has been called on
it), or the literal `True` stored by `open_ossaudiodev` (line 171). -/
inductive Handle where
  | hnone
  | hpyaudio (terminated : Bool)
  | hossTrue
deriving DecidableEq

/-- Which implementation `self._do_play` is currently bound to
(line 43 default, rebound at lines 117 and 173). -/
inductive PlayImpl where
  | nullPlay
  | pyaudioPlay
  | ossPlay
deriving DecidableEq

/-- Which implementation `self.close` is currently bound to (line 42
default, rebound at lines 118 and 174). -/
inductive CloseImpl where
  | nullClose
  | pyaudioClose
  | ossClose
deriving DecidableEq

/-- Host environment: the `audio_modules` availability flags probed at
lines 105 and 169, plus whether `pyaudio.PyAudio()` (line 111) raises
when it runs (device busy, no sound system, ...).  `open_ossaudiodev`
performs only assignments after its availability check, so it has no
corresponding failure flag. -/
structure Env where
  pyaudioAvailable : Bool
  ossAvailable : Bool
  pyaudioInitRaises : Bool
deriving DecidableEq

/-- Mutable state of a `PlayAudio` instance: `self.handle`, the two
method bindings, and the `self.stream` / `self.osshandle` fields
(modelled as `true` when the field holds a live native object). -/
structure Session where
  handle : Handle
  do_play : PlayImpl
  closeBinding : CloseImpl
  stream : Bool
  osshandle : Bool
deriving DecidableEq

/-- State after `__init__` (lines 39-44) just before the `self.open()`
call: `handle = None`, `close = self._close`, `_do_play = self._play`. -/
def initSession : Session :=
  { handle := .hnone, do_play := .nullPlay, closeBinding := .nullClose,
    stream := false, osshandle := false }

/-- `audio_modules[lib]` lookup used by the selection loop (line 216). -/
def audio_modules (env : Env) : BackendId → Bool
  | .pyaudioB => env.pyaudioAvailable
  | .ossB => env.ossAvailable

/-- `PlayAudio.open_pyaudio` (lines 97-119).  `pyaudio.PyAudio()` runs
before any of `self.handle`, `self._do_play`, `self.close` are
assigned, so when it raises the session state is unchanged (the
file-descriptor juggling around it, lines 107-116, touches no session
field).  On success: `handle` set, `stream = None`, bindings rebound. -/
def open_pyaudio (env : Env) (s : Session) : Except PyExc Session :=
  if !env.pyaudioAvailable then .error .importError
  else if env.pyaudioInitRaises then .error .other
  else .ok { s with handle := .hpyaudio false, stream := false,
                    do_play := .pyaudioPlay, closeBinding := .pyaudioClose }

/-- `PlayAudio.open_ossaudiodev` (lines 156-175): after the availability
check it only assigns fields (`handle = True`, `osshandle = None`,
rebinding), so it cannot fail when the module is available. -/
def open_ossaudiodev (env : Env) (s : Session) : Except PyExc Session :=
  if !env.ossAvailable then .error .importError
  else .ok { s with handle := .hossTrue, osshandle := false,
                    do_play := .ossPlay, closeBinding := .ossClose }

/-- Dispatch of the `open_device` entries of the `audio_open` list
(lines 210-213). -/
def open_device (env : Env) : BackendId → Session → Except PyExc Session
  | .pyaudioB => open_pyaudio env
  | .ossB => open_ossaudiodev env

/-- The priority-ordered `audio_open` list (lines 210-213): pyaudio
first, then ossaudiodev. -/
def audio_open : List BackendId := [.pyaudioB, .ossB]

/-- Warning text of line 222. -/
def backendName : BackendId → String
  | .pyaudioB => "pyaudio"
  | .ossB => "ossaudiodev"

/-- The selection loop of `PlayAudio.open` (lines 215-222): skip
unavailable modules, `break` on the first success, and on an exception
emit `warnings.warn('failed to open audio module ...')` and fall
through to the next candidate.  Returns the final session state and the
warnings emitted. -/
def openLoop (env : Env) : List BackendId → Session → Session × List String
  | [], s => (s, [])
  | lib :: rest, s =>
    if !audio_modules env lib then openLoop env rest s
    else
      match open_device env lib s with
      | .ok s1 => (s1, [])
      | .error _ =>
        let r := openLoop env rest s
        (r.1, ("failed to open audio module " ++ backendName lib) :: r.2)

/-- `PlayAudio.open` (lines 207-223). -/
def PlayAudio_open (env : Env) (s : Session) : Session × List String :=
  openLoop env audio_open s

/-- Native resource releases observable from the close paths. -/
inductive NativeAction where
  | streamClosed
  | pyaudioTerminated
  | ossClosed
deriving DecidableEq

/-- `PlayAudio._close_pyaudio` (lines 148-153): close `self.stream` if
set, null it, then call `self.handle.terminate()`.  Note that
`self.handle` is never set to `None` here; `terminate` is invoked on
whatever object the handle holds (raising `AttributeError` were it
`None`). -/
def close_pyaudio (s : Session) : Session × List NativeAction × Outcome :=
  let acts := if s.stream then [NativeAction.streamClosed] else []
  let s1 := { s with stream := false }
  match s1.handle with
  | .hpyaudio _ =>
    ({ s1 with handle := .hpyaudio true }, acts ++ [.pyaudioTerminated], .ok)
  | .hossTrue => (s1, acts, .exc .attributeError)
  | .hnone => (s1, acts, .exc .attributeError)

/-- `PlayAudio._close_ossaudiodev` (lines 200-205): null the handle,
close `self.osshandle` if set, null it. -/
def close_ossaudiodev (s : Session) : Session × List NativeAction × Outcome :=
  let s1 := { s with handle := .hnone }
  let acts := if s1.osshandle then [NativeAction.ossClosed] else []
  (({ s1 with osshandle := false }), acts, .ok)

/-- `PlayAudio._close` (lines 46-48): `pass`. -/
def close_null (s : Session) : Session × List NativeAction × Outcome :=
  (s, [], .ok)

/-- Dynamic dispatch of `self.close()` through the current binding. -/
def sessionClose (s : Session) : Session × List NativeAction × Outcome :=
  match s.closeBinding with
  | .nullClose => close_null s
  | .pyaudioClose => close_pyaudio s
  | .ossClose => close_ossaudiodev s

/-- Dynamic dispatch of `self._do_play(data, rate)`.  `_play` (lines
50-52) does nothing.  `_play_pyaudio` first opens a stream on
`self.handle` (line 133) - on a terminated or absent handle this raises
- then runs the pipeline; an empty buffer makes `np.max` raise
`ValueError` (line 136); NaN samples are written without an exception.
`_play_ossaudiodev` behaves alike on an assumed-working `/dev/dsp`.
Stream-configuration failures for out-of-range rates are native-library
behaviour outside this model (they are in any case never
`InvalidArgument`). -/
def dispatch_do_play (s : Session) (data : List ℚ) : Session × Outcome :=
  match s.do_play with
  | .nullPlay => (s, .ok)
  | .pyaudioPlay =>
    match s.handle with
    | .hpyaudio false => if data.isEmpty then (s, .exc .valueError) else (s, .ok)
    | _ => (s, .exc .other)
  | .ossPlay => if data.isEmpty then (s, .exc .valueError) else (s, .ok)

/-- Result of `PlayAudio.play`: final session state, whether the lazy
`self.open()` of line 63 ran, and the outcome. -/
structure PlayResult where
  session : Session
  didOpen : Bool
  outcome : Outcome
deriving DecidableEq

/-- `PlayAudio.play` (lines 54-64): reopen when `self.handle is None`,
then dispatch `self._do_play(data, rate)` through the (possibly fresh)
binding.  No argument is validated. -/
def PlayAudio_play (env : Env) (s : Session) (data : List ℚ) (_rate : ℚ) :
    PlayResult :=
  if s.handle = .hnone then
    let s1 := (PlayAudio_open env s).1
    let r := dispatch_do_play s1 data
    { session := r.1, didOpen := true, outcome := r.2 }
  else
    let r := dispatch_do_play s data
    { session := r.1, didOpen := false, outcome := r.2 }

/-- Length of `np.arange(0.0, duration, 1.0/rate)` (line 76):
`max(0, ceil((stop-start)/step)) = max(0, ceil(duration*rate))` samples
(`Int.toNat` clamps the negative case to 0).  Only meaningful for
`rate ≠ 0`; `rate = 0` makes `1.0/rate` raise first. -/
def arangeLen (duration rate : ℚ) : ℕ :=
  (⌈duration * rate⌉).toNat

/-- `PlayAudio.beep` (lines 66-84).  `1.0/rate` raises
`ZeroDivisionError` when `rate = 0`.  The buffer has
`arangeLen duration rate` samples; `nr = int(np.round(ramp*rate))`
(line 79); `xrange(nr)` is empty for `nr ≤ 0`.  The ramp loop (lines
80-82) evaluates `data[k]` in iteration order `k = 0, 1, ...`; the
second index `len(data)-k-1` wraps negatively in Python and stays in
range whenever `data[k]` itself is; so the loop raises `IndexError`
exactly when `nr > len(data)` (first failing at `k = len(data)`).
Otherwise the buffer (whose sine sample values influence nothing
observed by `play`: only its length does) is handed to `self.play`
(line 84). -/
def PlayAudio_beep (env : Env) (s : Session)
    (duration _frequency rate ramp : ℚ) : PlayResult :=
  if rate = 0 then
    { session := s, didOpen := false, outcome := .exc .zeroDivisionError }
  else if arangeLen duration rate < (roundHalfEven (ramp * rate)).toNat then
    { session := s, didOpen := false, outcome := .exc .indexError }
  else
    PlayAudio_play env s (List.replicate (arangeLen duration rate) 0) rate

/-- Python truthiness of the value `__exit__` returns: `None` is falsy,
any exception instance is truthy (default object truthiness; exception
classes define neither `__bool__` nor `__len__`). -/
def pyTruthy : Option PyExc → Bool
  | none => false
  | some _ => true

/-- `PlayAudio.__exit__` (lines 93-95): runs `self.__del__()` - which
calls `self.close()` (line 88) - and returns `value`.  Result: the
session/native effects of the close, and the returned value. -/
def PlayAudio_exit (s : Session) (value : Option PyExc) :
    (Session × List NativeAction × Outcome) × Option PyExc :=
  (sessionClose s, value)

/-- The `with` statement's treatment of the body's exception: when the
body raised `e`, `__exit__(type(e), e, tb)` is called and the exception
is re-raised only when the returned value is falsy. -/
def withBlockRaises (s : Session) (bodyExc : Option PyExc) : Option PyExc :=
  match bodyExc with
  | none => none
  | some e => if pyTruthy (PlayAudio_exit s (some e)).2 then none else some e

/-! ## Heap model of the play paths (aliasing made explicit) -/

/-- Arrays live at natural-number refs. -/
def Heap : Type := ℕ → List ℚ

/-- Store a new value at a ref. -/
def hupdate (h : Heap) (r : ℕ) (v : List ℚ) : Heap :=
  fun r1 => if r1 = r then v else h r1

/-- Statements of `_play_ossaudiodev`, lines 193-195, over a heap of
arrays, distinguishing allocation from in-place mutation:
`rawdata = data - np.mean(data, axis=0)` allocates a fresh array at ref
`fresh`; `rawdata /= np.max(rawdata)*2.0` mutates ref `fresh` in place;
`np.array(np.round(2.0**15*rawdata)).astype('i2')` allocates again at
`fresh+1`.  (Sample values here use total `ℚ` division; the NaN
behaviour of the zero divisor is modelled by `normalizeStep`, while
this definition is about which refs are written.)  Returns the final
heap and the ref of the device-ready buffer. -/
def play_ossaudiodev_heap (h : Heap) (dataRef fresh : ℕ) : Heap × ℕ :=
  let data := h dataRef
  let m := data.sum / (data.length : ℚ)
  let h1 := hupdate h fresh (data.map (fun x => x - m))
  let d := listMax (h1 fresh) * 2
  let h2 := hupdate h1 fresh ((h1 fresh).map (fun x => x / d))
  let h3 := hupdate h2 (fresh + 1)
    ((h2 fresh).map (fun x => (roundHalfEven (2 ^ 15 * x) : ℚ)))
  (h3, fresh + 1)

/-- Statements of `_play_pyaudio`, lines 135-142 (single channel), over
a heap of arrays: `rawdata = data - np.mean(data, axis=0)` allocates at
`fresh`; `rawdata /= np.max(rawdata)*2.0` mutates `fresh` in place;
`rawdata = np.hstack((rawdata, np.zeros(11*len(rawdata)/10)))` allocates
at `fresh+1` and rebinds the name; the quantized `ad` allocates at
`fresh+2`. -/
def play_pyaudio_heap (h : Heap) (dataRef fresh : ℕ) : Heap × ℕ :=
  let data := h dataRef
  let m := data.sum / (data.length : ℚ)
  let h1 := hupdate h fresh (data.map (fun x => x - m))
  let d := listMax (h1 fresh) * 2
  let h2 := hupdate h1 fresh ((h1 fresh).map (fun x => x / d))
  let h3 := hupdate h2 (fresh + 1)
    ((h2 fresh) ++ List.replicate (11 * (h2 fresh).length / 10) (0 : ℚ))
  let h4 := hupdate h3 (fresh + 2)
    ((h3 (fresh + 1)).map (fun x => (roundHalfEven (2 ^ 15 * x) : ℚ)))
  (h4, fresh + 2)

/-! ## Helper lemmas -/

theorem le_foldl_max (a : ℚ) (l : List ℚ) : a ≤ l.foldl max a := by
  induction l generalizing a with
  | nil => exact le_refl a
  | cons x xs ih => exact le_trans (le_max_left a x) (ih (max a x))

theorem mem_le_foldl_max (x a : ℚ) (l : List ℚ) (hx : x ∈ l) :
    x ≤ l.foldl max a := by
  induction l generalizing a with
  | nil => cases hx
  | cons y ys ih =>
    simp only [List.foldl_cons]
    rcases List.mem_cons.mp hx with h | h
    · subst h
      exact le_trans (le_max_right a x) (le_foldl_max (max a x) ys)
    · exact ih (max a y) h

theorem mem_le_listMax (x : ℚ) (l : List ℚ) (hx : x ∈ l) : x ≤ listMax l := by
  cases l with
  | nil => cases hx
  | cons y ys =>
    rcases List.mem_cons.mp hx with h | h
    · subst h; exact le_foldl_max x ys
    · exact mem_le_foldl_max x y ys h

theorem sum_map_sub_const (l : List ℚ) (m : ℚ) :
    (l.map (fun x => x - m)).sum = l.sum - l.length * m := by
  induction l with
  | nil => simp
  | cons x xs ih =>
    simp only [List.map_cons, List.sum_cons, ih, List.length_cons]
    push_cast
    ring

theorem sum_map_sub_mean (l : List ℚ) (hne : l ≠ []) :
    (l.map (fun x => x - l.sum / (l.length : ℚ))).sum = 0 := by
  have hlen : (l.length : ℚ) ≠ 0 := by
    exact_mod_cast (List.length_pos.mpr hne).ne'
  rw [sum_map_sub_const]
  field_simp

theorem listMax_nonneg_of_sum_zero (l : List ℚ) (hne : l ≠ [])
    (hs : l.sum = 0) : 0 ≤ listMax l := by
  by_contra h
  push_neg at h
  have hb : ∀ x ∈ l, x ≤ listMax l := fun x hx => mem_le_listMax x l hx
  have hsum := List.sum_le_card_nsmul l (listMax l) hb
  rw [hs, nsmul_eq_mul] at hsum
  have hlen : (0 : ℚ) < l.length := by
    exact_mod_cast List.length_pos.mpr hne
  nlinarith

theorem normalizeStep_length (data : List ℚ) (nd : List (Option ℚ))
    (h : normalizeStep data = some nd) : nd.length = data.length := by
  unfold normalizeStep at h
  split at h
  · exact absurd h (by simp)
  · rw [Option.some.injEq] at h
    subst h
    split <;> simp

/-! ## Claims -/

/-- C1: for every environment, `open()` never raises.  It walks the
priority-ordered backend list (pyaudio, then ossaudiodev): a working
pyaudio wins; a pyaudio whose initialization raises only adds the
non-fatal warning of line 222 and the loop moves on to ossaudiodev; and
when no candidate succeeds the session's `_do_play` and `close`
bindings stay at the no-op defaults of `__init__`, so a subsequent
`play` returns without an exception for every buffer and rate. -/
theorem open_walks_backends_warns_and_falls_back (env : Env) :
    (env.pyaudioAvailable = true ∧ env.pyaudioInitRaises = false →
      (PlayAudio_open env initSession).1.do_play = PlayImpl.pyaudioPlay) ∧
    (env.pyaudioAvailable = true ∧ env.pyaudioInitRaises = true →
      "failed to open audio module pyaudio" ∈ (PlayAudio_open env initSession).2 ∧
      (env.ossAvailable = true →
        (PlayAudio_open env initSession).1.do_play = PlayImpl.ossPlay)) ∧
    ((env.pyaudioAvailable = true → env.pyaudioInitRaises = true) →
      env.ossAvailable = false →
      (PlayAudio_open env initSession).1.do_play = PlayImpl.nullPlay ∧
      (PlayAudio_open env initSession).1.closeBinding = CloseImpl.nullClose ∧
      ∀ (data : List ℚ) (rate : ℚ),
        (PlayAudio_play env (PlayAudio_open env initSession).1 data rate).outcome = Outcome.ok) := by
  obtain ⟨pa, oss, pf⟩ := env
  cases pa <;> cases oss <;> cases pf <;>
    simp [PlayAudio_open, openLoop, audio_open, audio_modules, open_device,
      open_pyaudio, open_ossaudiodev, PlayAudio_play, dispatch_do_play, initSession] <;>
    rfl

/-- Witness for C1 at the concrete environment where pyaudio is
available but raises during initialization and ossaudiodev is absent:
the warning is emitted, the bindings stay no-ops, and `play` on an
empty buffer with a negative rate still returns `ok`. -/
theorem open_walks_backends_warns_and_falls_back_witness :
    "failed to open audio module pyaudio" ∈
      (PlayAudio_open ⟨true, false, true⟩ initSession).2 ∧
    (PlayAudio_open ⟨true, false, true⟩ initSession).1.do_play = PlayImpl.nullPlay ∧
    (PlayAudio_play ⟨true, false, true⟩
      (PlayAudio_open ⟨true, false, true⟩ initSession).1 [] (-1)).outcome = Outcome.ok := by
  have h := open_walks_backends_warns_and_falls_back ⟨true, false, true⟩
  exact ⟨(h.2.1 ⟨rfl, rfl⟩).1, (h.2.2 (fun _ => rfl) rfl).1,
    (h.2.2 (fun _ => rfl) rfl).2.2 [] (-1)⟩

theorem isInvalidArgumentExc_dispatch (s : Session) (data : List ℚ) :
    isInvalidArgumentExc (dispatch_do_play s data).2 = false := by
  rcases s with ⟨hd, dp, cb, st, osh⟩
  cases dp <;> rcases hd with _ | b | _ <;> try cases b
  all_goals cases data <;> simp [dispatch_do_play, isInvalidArgumentExc]

theorem isInvalidArgumentExc_play (env : Env) (s : Session)
    (data : List ℚ) (rate : ℚ) :
    isInvalidArgumentExc (PlayAudio_play env s data rate).outcome = false := by
  unfold PlayAudio_play
  split
  · exact isInvalidArgumentExc_dispatch _ _
  · exact isInvalidArgumentExc_dispatch _ _

theorem arangeLen_neg : arangeLen (-1) 44100 = 0 := by
  unfold arangeLen
  rw [show ((-1 : ℚ) * 44100) = ((-44100 : ℤ) : ℚ) by norm_num, Int.ceil_intCast]
  rfl

theorem arangeLen_half : arangeLen (1/2) 44100 = 22050 := by
  unfold arangeLen
  rw [show ((1/2 : ℚ) * 44100) = ((22050 : ℤ) : ℚ) by norm_num, Int.ceil_intCast]
  rfl

theorem rhe_4410 : roundHalfEven ((1/10 : ℚ) * 44100) = 4410 := by
  norm_num [roundHalfEven]

theorem rhe_44100 : roundHalfEven ((1 : ℚ) * 44100) = 44100 := by
  norm_num [roundHalfEven]

/-- C2 counterexample: with no backend available, `play` on an empty
buffer with a negative rate returns `ok` - it does not fail with
`InvalidArgument` - and `beep` with a negative duration fails with
`IndexError` from the ramp loop (iteration `k = 0` indexes the empty
sine buffer), again not `InvalidArgument`. -/
theorem play_beep_invalid_argument_cex :
    (PlayAudio_play ⟨false, false, false⟩ initSession [] (-1)).outcome = Outcome.ok ∧
    isInvalidArgumentExc
      (PlayAudio_play ⟨false, false, false⟩ initSession [] (-1)).outcome = false ∧
    (PlayAudio_beep ⟨false, false, false⟩ initSession (-1) 440 44100 (1/10)).outcome
      = Outcome.exc PyExc.indexError ∧
    isInvalidArgumentExc (PlayAudio_beep ⟨false, false, false⟩ initSession
      (-1) 440 44100 (1/10)).outcome = false := by
  have hcond : arangeLen (-1) 44100 < (roundHalfEven ((1/10 : ℚ) * 44100)).toNat := by
    rw [arangeLen_neg, rhe_4410]; decide
  have hb : (PlayAudio_beep ⟨false, false, false⟩ initSession
      (-1) 440 44100 (1/10)).outcome = Outcome.exc PyExc.indexError := by
    unfold PlayAudio_beep
    rw [if_neg (by norm_num : ¬(44100 : ℚ) = 0), if_pos hcond]
  have hp : (PlayAudio_play ⟨false, false, false⟩ initSession [] (-1)).outcome
      = Outcome.ok := by
    simp [PlayAudio_play, PlayAudio_open, openLoop, audio_open, audio_modules,
      dispatch_do_play, initSession]
  exact ⟨hp, by rw [hp]; rfl, hb, by rw [hb]; rfl⟩

/-- C2 amended: `play` and `beep` perform no argument validation at
all; whatever the arguments (empty buffer, non-positive rate,
non-positive duration, out-of-range ramp) and whatever the session and
environment, the outcome is never an `InvalidArgument` failure - the
calls either proceed to the backend or die of an incidental exception
such as `IndexError` or `ZeroDivisionError`. -/
theorem play_beep_never_invalid_argument (env : Env) (s : Session)
    (data : List ℚ) (rate duration frequency rate2 ramp : ℚ) :
    isInvalidArgumentExc (PlayAudio_play env s data rate).outcome = false ∧
    isInvalidArgumentExc
      (PlayAudio_beep env s duration frequency rate2 ramp).outcome = false := by
  refine ⟨isInvalidArgumentExc_play env s data rate, ?_⟩
  unfold PlayAudio_beep
  split
  · rfl
  · split
    · rfl
    · exact isInvalidArgumentExc_play _ _ _ _

/-- Witness for C2's amended statement at concrete arguments that
violate every spec precondition at once. -/
theorem play_beep_never_invalid_argument_witness :
    isInvalidArgumentExc
      (PlayAudio_play ⟨false, false, false⟩ initSession [] 0).outcome = false ∧
    isInvalidArgumentExc (PlayAudio_beep ⟨false, false, false⟩ initSession
      (-1) 440 0 (-1)).outcome = false :=
  play_beep_never_invalid_argument ⟨false, false, false⟩ initSession [] 0 (-1) 440 0 (-1)

/-- C4: the ramp sample count is `int(np.round(ramp*rate))` but the
source never clamps it.  At `beep(duration=1/2, frequency=440,
rate=44100, ramp=1)` the sine buffer has 22050 samples while
`nr = 44100`, and the ramp loop raises `IndexError` at `k = 22050`
instead of clamping to half the buffer length: the code crashes where
the claim requires it not to. -/
theorem beep_ramp_unclamped_index_error :
    arangeLen (1/2) 44100 = 22050 ∧
    (roundHalfEven ((1 : ℚ) * 44100)).toNat = 44100 ∧
    (PlayAudio_beep ⟨false, false, false⟩ initSession (1/2) 440 44100 1).outcome
      = Outcome.exc PyExc.indexError := by
  have hcond : arangeLen (1/2) 44100 < (roundHalfEven ((1 : ℚ) * 44100)).toNat := by
    rw [arangeLen_half, rhe_44100]; decide
  refine ⟨arangeLen_half, by rw [rhe_44100]; rfl, ?_⟩
  unfold PlayAudio_beep
  rw [if_neg (by norm_num : ¬(44100 : ℚ) = 0), if_pos hcond]

/-- C3: evaluation at the failing input, the all-zero 4-sample buffer.
The normalization divide is not skipped: the divisor
`np.max(rawdata)*2.0` is 0, every data sample becomes NaN (`none`),
and the quantized output is not a buffer of zero samples (only the
padding zeros are defined). -/
theorem silent_buffer_divide_not_skipped :
    play_pyaudio_pipeline [0, 0, 0, 0]
      = some (List.replicate 4 (none : Option ℤ) ++ List.replicate 4 (some 0)) ∧
    allZeroOutput (play_pyaudio_pipeline [0, 0, 0, 0]) = false := by
  constructor
  · norm_num [play_pyaudio_pipeline, normalizeStep, listMax, quantize,
      roundHalfEven, List.isEmpty, List.replicate]
  · norm_num [allZeroOutput, play_pyaudio_pipeline, normalizeStep, listMax,
      quantize, List.isEmpty, List.replicate]

/-- C5 counterexample: on the buffer `[-1, 1/2, 1/2]` (mean 0, global
maximum absolute value 1, but `np.max` = 1/2) the code divides by
`2 * 1/2 = 1`, not by `2 * 1`, and the normalized result keeps the
sample `-1`, whose absolute value exceeds 0.5. -/
theorem normalize_abs_bound_cex :
    normalizeStep [-1, 1/2, 1/2] = some [some (-1), some (1/2), some (1/2)] ∧
    (1/2 : ℚ) < |(-1 : ℚ)| := by
  constructor
  · norm_num [normalizeStep, listMax, List.isEmpty]
  · norm_num

/-- C5 amended: the normalization divides by `2 *` the global maximum
(signed, via `np.max`) of the mean-removed data when that maximum is
nonzero; every normalized sample is therefore at most `1/2`, while
negative samples may fall below `-1/2` (so only a one-sided bound
holds). -/
theorem normalized_samples_le_half (data : List ℚ) (nd : List (Option ℚ))
    (x : ℚ) (h : normalizeStep data = some nd) (hx : some x ∈ nd) : x ≤ 1/2 := by
  unfold normalizeStep at h
  split at h
  · simp at h
  case isFalse hne =>
    rw [Option.some.injEq] at h
    subst h
    split at hx
    case isTrue hd => simp [List.mem_map] at hx
    case isFalse hd =>
      rw [List.mem_map] at hx
      obtain ⟨y, hy, hxy⟩ := hx
      rw [Option.some.injEq] at hxy
      subst hxy
      have hdata : data ≠ [] := by
        intro hnil
        subst hnil
        simp at hne
      have hsum : (data.map (fun z => z - data.sum / (data.length : ℚ))).sum = 0 :=
        sum_map_sub_mean data hdata
      have hnnil : data.map (fun z => z - data.sum / (data.length : ℚ)) ≠ [] := by
        simpa using hdata
      have hM0 : 0 ≤ listMax (data.map (fun z => z - data.sum / (data.length : ℚ))) :=
        listMax_nonneg_of_sum_zero _ hnnil hsum
      have hMpos : 0 < listMax (data.map (fun z => z - data.sum / (data.length : ℚ))) := by
        rcases lt_or_eq_of_le hM0 with hlt | heq
        · exact hlt
        · exact absurd (by rw [← heq]; ring) hd
      have hy_le := mem_le_listMax _ _ hy
      rw [div_le_iff₀ (by linarith)]
      linarith

/-- Witness for C5's amended statement: on `[0, 1]` the normalized
samples are `[-1/2, 1/2]`, and the member `1/2` satisfies the bound. -/
theorem normalized_samples_le_half_witness : (1/2 : ℚ) ≤ 1/2 :=
  normalized_samples_le_half [0, 1] [some (-1/2), some (1/2)] (1/2)
    (by norm_num [normalizeStep, listMax, List.isEmpty]) (by simp)

/-- C6 counterexample: on a 10-frame buffer the ossaudiodev write path
produces exactly 10 frames - no trailing silence at all - while the
pyaudio path produces 21 frames, i.e. 110% extra, not approximately
10%. -/
theorem padding_cex :
    (play_ossaudiodev_pipeline (List.replicate 10 0)).map List.length = some 10 ∧
    (play_pyaudio_pipeline (List.replicate 10 0)).map List.length = some 21 := by
  constructor <;>
    norm_num [play_ossaudiodev_pipeline, play_pyaudio_pipeline, normalizeStep,
      listMax, quantize, List.isEmpty, List.replicate]

/-- C6 amended: only the pyaudio path pads, appending
`floor(11*n/10)` extra zero frames (about 110% extra) after
normalization; the ossaudiodev path appends nothing and its output
length equals the input length. -/
theorem pipeline_padding_lengths (data : List ℚ) (out1 out2 : List (Option ℤ))
    (h1 : play_ossaudiodev_pipeline data = some out1)
    (h2 : play_pyaudio_pipeline data = some out2) :
    out1.length = data.length ∧
    out2.length = data.length + 11 * data.length / 10 := by
  unfold play_ossaudiodev_pipeline at h1
  unfold play_pyaudio_pipeline at h2
  cases hn : normalizeStep data with
  | none => rw [hn] at h1; simp at h1
  | some nd =>
    rw [hn] at h1 h2
    simp only [Option.map_some', Option.some.injEq] at h1 h2
    subst h1
    subst h2
    have hlen := normalizeStep_length data nd hn
    constructor
    · simp [hlen]
    · simp [hlen]

/-- Witness for C6's amended statement at the 10-frame zero buffer:
10 output frames on the ossaudiodev path, 10 + 11 on the pyaudio
path. -/
theorem pipeline_padding_lengths_witness :
    (List.replicate 10 (none : Option ℤ)).length = (List.replicate 10 (0 : ℚ)).length ∧
    (List.replicate 10 (none : Option ℤ) ++ List.replicate 11 (some 0)).length
      = (List.replicate 10 (0 : ℚ)).length + 11 * (List.replicate 10 (0 : ℚ)).length / 10 :=
  pipeline_padding_lengths (List.replicate 10 0) _ _
    (by norm_num [play_ossaudiodev_pipeline, normalizeStep, listMax, quantize,
      List.isEmpty, List.replicate])
    (by norm_num [play_pyaudio_pipeline, normalizeStep, listMax, quantize,
      roundHalfEven, List.isEmpty, List.replicate])

/-- Environment in which pyaudio is importable and initializes
successfully. -/
def envPyaudio : Env := ⟨true, true, false⟩

/-- A session whose `open()` selected the pyaudio backend. -/
def sPyaudio : Session := (PlayAudio_open envPyaudio initSession).1

/-- C7: evaluation at the failing input, a pyaudio-backed session
closed twice.  `_close_pyaudio` leaves `self.handle` holding the
(now terminated) `PyAudio` object instead of clearing it, and the
second `close()` invokes `handle.terminate()` on the already-terminated
native object again - a double release. -/
theorem close_pyaudio_not_idempotent :
    (sessionClose sPyaudio).1.handle = Handle.hpyaudio true ∧
    (sessionClose sPyaudio).2.1 = [NativeAction.pyaudioTerminated] ∧
    (sessionClose (sessionClose sPyaudio).1).2.1 = [NativeAction.pyaudioTerminated] := by
  decide

/-- C8: evaluation at the failing input, `play` after `close()` on a
pyaudio-backed session.  The handle is still non-null after the close,
so `play` skips the lazy `self.open()` of line 63 and dispatches to
`_play_pyaudio` on the terminated handle, which raises, instead of
reopening the device. -/
theorem close_pyaudio_blocks_reopen :
    (sessionClose sPyaudio).1.handle = Handle.hpyaudio true ∧
    (PlayAudio_play envPyaudio (sessionClose sPyaudio).1 [1] 44100).didOpen = false ∧
    (PlayAudio_play envPyaudio (sessionClose sPyaudio).1 [1] 44100).outcome
      = Outcome.exc PyExc.other := by
  refine ⟨rfl, rfl, rfl⟩

/-- C9: on both play paths the caller's buffer is never written:
`data - np.mean(data)` allocates a fresh array, the in-place `/=` and
the padding/quantization target only the fresh refs, so the heap cell
of the input buffer is unchanged after the pipeline runs. -/
theorem play_heap_input_unchanged (h : Heap) (dataRef fresh : ℕ)
    (hlt : dataRef < fresh) :
    (play_ossaudiodev_heap h dataRef fresh).1 dataRef = h dataRef ∧
    (play_pyaudio_heap h dataRef fresh).1 dataRef = h dataRef := by
  have h1 : dataRef ≠ fresh := Nat.ne_of_lt hlt
  have h2 : dataRef ≠ fresh + 1 := by omega
  have h3 : dataRef ≠ fresh + 2 := by omega
  constructor <;>
    simp [play_ossaudiodev_heap, play_pyaudio_heap, hupdate, h1, h2, h3]

/-- Witness for C9: playing the concrete buffer `[1, 2, 3]` stored at
ref 0 leaves ref 0 holding `[1, 2, 3]` on both paths. -/
theorem play_heap_input_unchanged_witness :
    (play_ossaudiodev_heap (hupdate (fun _ => []) 0 [1, 2, 3]) 0 1).1 0 = [1, 2, 3] ∧
    (play_pyaudio_heap (hupdate (fun _ => []) 0 [1, 2, 3]) 0 1).1 0 = [1, 2, 3] := by
  have h := play_heap_input_unchanged (hupdate (fun _ => []) 0 [1, 2, 3]) 0 1 (by decide)
  have h0 : hupdate (fun _ => ([] : List ℚ)) 0 [1, 2, 3] 0 = [1, 2, 3] := rfl
  exact ⟨h.1.trans h0, h.2.trans h0⟩

/-- C10: for every session state and every exception raised in the body
of a `with open_audio() as audio:` block, `__exit__` returns the
exception value itself; the instance is truthy, so the `with` statement
suppresses the exception (re-raises nothing), and the close runs via
`__del__`. -/
theorem exit_suppresses_exception (s : Session) (e : PyExc) :
    withBlockRaises s (some e) = none ∧
    (PlayAudio_exit s (some e)).1 = sessionClose s :=
  ⟨rfl, rfl⟩

/-- Witness for C10 at a concrete session and exception. -/
theorem exit_suppresses_exception_witness :
    withBlockRaises initSession (some PyExc.valueError) = none ∧
    (PlayAudio_exit initSession (some PyExc.valueError)).1 = sessionClose initSession :=
  exit_suppresses_exception initSession PyExc.valueError
